import Mathlib

/-!
Verification of the solana-wrapper service core against its specification.

The definitions below are a shallow embedding of the TypeScript source:
  * byte-level state decoding (`readVecPkSafe`, `decodeStateHeader`,
    `safeDecodeVectors` from src/solana/solana.service.ts),
  * the idempotency store (`checkIdempotency`, `cacheIdempotencyResult`),
  * the counting-semaphore gate (`RpcGate` / `Gate` classes),
  * the transaction submission loop (`sendIx`),
  * the service operations (challenge creation, subscription build,
    bonus distribution, batch refund).

Buffers are lists of bytes (`List Nat`, each < 256 in real inputs; the
decoders never depend on the bound).  Remote-procedure-call results are
supplied through explicit environment records, and each operation model
returns both its outcome and the trace of remote calls it performed.
-/

set_option maxRecDepth 16384

namespace SolanaWrapper

/-- First 8 bytes of sha256("account:State"): the account discriminator
checked by `decodeStateHeader`. -/
def STATE_DISC : List Nat := [216, 146, 107, 94, 104, 75, 182, 177]

/-- First 8 bytes of sha256("global:subscribe"): instruction data used by
`buildSubscribeTxForChallenge`. -/
def SUBSCRIBE_DISC : List Nat := [254, 28, 191, 138, 156, 179, 183, 53]

/-- `buf.readUInt8(o)` on an in-bounds offset (all fixed-header reads are
guarded by the minimum-length check). -/
def readU8 (buf : List Nat) (o : Nat) : Nat := buf.getD o 0

/-- `buf.readUInt32LE(o)`: `none` models the RangeError Node throws when
fewer than 4 bytes remain. -/
def readU32LE (buf : List Nat) (o : Nat) : Option Nat :=
  if o + 4 ≤ buf.length then
    some (readU8 buf o + 256 * readU8 buf (o+1) + 65536 * readU8 buf (o+2)
          + 16777216 * readU8 buf (o+3))
  else none

/-- Little-endian unsigned 64-bit read, `new BN(buf.subarray(o, o+8), 'le')`. -/
def u64le (buf : List Nat) (o : Nat) : Nat :=
  readU8 buf o + 256 * readU8 buf (o+1) + 65536 * readU8 buf (o+2)
  + 16777216 * readU8 buf (o+3) + 4294967296 * readU8 buf (o+4)
  + 1099511627776 * readU8 buf (o+5) + 281474976710656 * readU8 buf (o+6)
  + 72057594037927936 * readU8 buf (o+7)

/-- `readU64BN` from the source: value plus advanced offset. -/
def readU64BN (buf : List Nat) (o : Nat) : Nat × Nat := (u64le buf o, o + 8)

/-- 32-byte slice, `buf.subarray(o, o + 32)`. -/
def slice32 (buf : List Nat) (o : Nat) : List Nat := (buf.drop o).take 32

/-- Errors thrown inside `readVecPkSafe`: the Node RangeError from an
out-of-bounds `readUInt32LE`, or the explicit bad-length throw. -/
inductive VecErr where
  | rangeError : VecErr
  | badLength (len max : Nat) : VecErr
deriving DecidableEq

/-- The element-reading loop of `readVecPkSafe`. -/
def readPks (buf : List Nat) (o : Nat) : Nat → List (List Nat)
  | 0 => []
  | n+1 => slice32 buf o :: readPks buf (o + 32) n

/-- `readVecPkSafe(buf, o)`: read a 4-byte little-endian length, check
`len ≤ floor((buf.length - (o+4)) / 32)`, then read `len` 32-byte keys,
returning the list and the offset past the vector. -/
def readVecPkSafe (buf : List Nat) (o : Nat) : Except VecErr (List (List Nat) × Nat) :=
  match readU32LE buf o with
  | none => .error .rangeError
  | some len =>
    let max := (buf.length - (o + 4)) / 32
    if len > max then .error (.badLength len max)
    else .ok (readPks buf (o + 4) len, o + 4 + 32 * len)

/-- Hard failures of `decodeStateHeader`. -/
inductive HeaderErr where
  | tooSmall : HeaderErr
  | badDiscriminator : HeaderErr
deriving DecidableEq

structure StateHeader where
  version : Nat
  bump : Nat
  challengeId : Nat
  fee : Nat
  commission : Nat
  status : Nat
  owner : List Nat
  treasury : List Nat
  paid : Bool
  opCounter : Nat
  vecOffset : Nat
deriving DecidableEq

/-- `decodeStateHeader(data)`: length check, discriminator check, then the
fixed fields sequentially with a threaded offset, exactly as the source. -/
def decodeStateHeader (data : List Nat) : Except HeaderErr StateHeader :=
  if data.length < 8 + 93 then .error .tooSmall
  else if data.take 8 ≠ STATE_DISC then .error .badDiscriminator
  else
    let o := 8
    let version := readU8 data o
    let o := o + 1
    let bump := readU8 data o
    let o := o + 1
    let r := readU64BN data o
    let challengeId := r.1
    let o := r.2
    let r := readU64BN data o
    let fee := r.1
    let o := r.2
    let commission := readU8 data o
    let o := o + 1
    let status := readU8 data o
    let o := o + 1
    let owner := slice32 data o
    let o := o + 32
    let treasury := slice32 data o
    let o := o + 32
    let paid := readU8 data o ≠ 0
    let o := o + 1
    let r := readU64BN data o
    let opCounter := r.1
    let o := r.2
    .ok { version := version, bump := bump, challengeId := challengeId,
          fee := fee, commission := commission, status := status,
          owner := owner, treasury := treasury, paid := paid,
          opCounter := opCounter, vecOffset := o }

structure Vectors where
  owners : List (List Nat)
  subscribers : List (List Nat)
  winnersList : List (List Nat)
deriving DecidableEq

/-- `safeDecodeVectors(data, vecOffset)`: the three vectors in fixed order
(owners, subscribers, winners).  On any vector error, soft-fail mode
(`ALLOW_VECTOR_DECODE_SOFTFAIL === '1'`) returns empty lists; the default
propagates the error as the DECODE_VECTORS_FAILED failure. -/
def safeDecodeVectors (data : List Nat) (vecOffset : Nat) (softFail : Bool) :
    Except VecErr Vectors :=
  let run : Except VecErr Vectors :=
    match readVecPkSafe data vecOffset with
    | .error e => .error e
    | .ok r1 =>
      match readVecPkSafe data r1.2 with
      | .error e => .error e
      | .ok r2 =>
        match readVecPkSafe data r2.2 with
        | .error e => .error e
        | .ok r3 => .ok { owners := r1.1, subscribers := r2.1, winnersList := r3.1 }
  match run with
  | .ok v => .ok v
  | .error e => if softFail then .ok ⟨[], [], []⟩ else .error e

/-- Offset at which the `k`-th vector (0 = owners, 1 = subscribers,
2 = winners) starts, given the preceding vectors decoded successfully. -/
def vecStartOffset (data : List Nat) (vecOffset : Nat) : Nat → Option Nat
  | 0 => some vecOffset
  | k+1 =>
    match vecStartOffset data vecOffset k with
    | some o =>
      match readVecPkSafe data o with
      | .ok r => some r.2
      | .error _ => none
    | none => none

/-! ### Idempotency store (`idempotencyCache`, `checkIdempotency`,
`cacheIdempotencyResult`) -/

/-- One cached entry: `{ result, timestamp }`.  Results are opaque to the
store; we model them as naturals. -/
structure IdemEntry where
  result : Nat
  timestamp : Nat
deriving DecidableEq

/-- The `Map<string, {result, timestamp}>`: an association list with at
most one binding per key (operations below preserve that). -/
abbrev IdemCache := List (String × IdemEntry)

def idemLookup (c : IdemCache) (key : String) : Option IdemEntry :=
  match c with
  | [] => none
  | (k, e) :: rest => if k = key then some e else idemLookup rest key

def idemDelete (c : IdemCache) (key : String) : IdemCache :=
  match c with
  | [] => []
  | (k, e) :: rest => if k = key then idemDelete rest key else (k, e) :: idemDelete rest key

def idemSet (c : IdemCache) (key : String) (e : IdemEntry) : IdemCache :=
  idemDelete c key ++ [(key, e)]

/-- 10-minute TTL in milliseconds. -/
def IDEM_TTL_MS : Nat := 10 * 60 * 1000

/-- The guard `!key || key.trim().length === 0`: true exactly for the
empty key and for keys consisting only of whitespace. -/
def isBlankKey (key : String) : Bool := key.toList.all Char.isWhitespace

/-- `checkIdempotency(key)`: empty/whitespace-only keys short-circuit to a
miss; otherwise a present entry is returned while `now - timestamp` is
within the TTL, and deleted (miss) once older.  Returns the result (if
hit) and the store afterwards. -/
def checkIdempotency (c : IdemCache) (now : Nat) (key : String) :
    Option Nat × IdemCache :=
  if isBlankKey key then (none, c)
  else
    match idemLookup c key with
    | none => (none, c)
    | some e =>
      if now - e.timestamp > IDEM_TTL_MS then (none, idemDelete c key)
      else (some e.result, c)

/-- Oldest-first ordering used by the eviction sort
(`sort((a, b) => a.timestamp - b.timestamp)`). -/
def idemOlder (a b : String × IdemEntry) : Bool :=
  a.2.timestamp ≤ b.2.timestamp

/-- `cacheIdempotencyResult(key, result)`: falsy (empty) keys are ignored;
at 10000 entries the oldest 20% are evicted first; the entry is stored
with the current timestamp; above 1000 entries all expired entries are
swept. -/
def cacheIdempotencyResult (c : IdemCache) (now : Nat) (key : String) (result : Nat) :
    IdemCache :=
  if key = "" then c
  else
    let c1 :=
      if c.length ≥ 10000 then
        let toRemove := 10000 * 2 / 10
        let sorted := c.mergeSort idemOlder
        (sorted.take toRemove).foldl (fun acc kv => idemDelete acc kv.1) c
      else c
    let c2 := idemSet c1 key ⟨result, now⟩
    if c2.length > 1000 then
      c2.filter (fun kv => ¬ (kv.2.timestamp < now - IDEM_TTL_MS))
    else c2

/-! ### Concurrency gate (`RpcGate` / `Gate`)

The JavaScript event loop makes `acquire`/`release` atomic, so the gate is
a sequential transition system over `(inFlight, q)`.  An operation's life
is: an `arrive` step (its `acquire`) and, once it holds a slot, a
`complete` step (the `finally` release, taken whether the operation
returned or threw). -/

structure GateState where
  max : Nat
  inFlight : Nat
  q : List Nat
deriving DecidableEq

inductive AcquireRes where
  | granted : AcquireRes
  | queued : AcquireRes
  | overflow : AcquireRes
deriving DecidableEq

/-- `acquire()`: grant a slot when below capacity; throw the overflow
error when the wait queue already exceeds 1000; otherwise enqueue the
waiter at the tail. -/
def gateAcquire (s : GateState) (wid : Nat) : AcquireRes × GateState :=
  if s.inFlight < s.max then (.granted, { s with inFlight := s.inFlight + 1 })
  else if s.q.length > 1000 then (.overflow, s)
  else (.queued, { s with q := s.q ++ [wid] })

/-- `release()`: decrement `inFlight`, then resume the queue head (which
re-increments as it starts executing).  Returns the resumed waiter. -/
def gateRelease (s : GateState) : Option Nat × GateState :=
  match s.q with
  | [] => (none, { s with inFlight := s.inFlight - 1 })
  | w :: rest => (some w, { s with inFlight := s.inFlight - 1 + 1, q := rest })

inductive GateEvent where
  | arrive (wid : Nat) : GateEvent
  | complete : GateEvent
deriving DecidableEq

/-- One scheduler step: an arrival runs `acquire`; a completion (only
possible while some operation is executing) runs `release`. -/
def gateStep (s : GateState) : GateEvent → GateState
  | .arrive wid => (gateAcquire s wid).2
  | .complete => if s.inFlight = 0 then s else (gateRelease s).2

def gateRun (m : Nat) (evs : List GateEvent) : GateState :=
  evs.foldl gateStep { max := m, inFlight := 0, q := [] }

/-- `run(fn)` once a slot is granted: execute `fn` (result `res`, which may
be an error) and release in `finally`.  Returns the propagated result and
the state after the release. -/
def gateRunOp (s : GateState) (res : Except String Nat) :
    Except String Nat × GateState :=
  let s1 := { s with inFlight := s.inFlight + 1 }
  let s2 := (gateRelease s1).2
  (res, s2)

/-! ### Transaction submission loop (`sendIx`) -/

/-- Outcome of one attempt's submit-and-confirm phase, as observed by the
`catch` in `sendIx`. -/
inductive AttemptRes where
  | confirmed (sig : Nat) : AttemptRes
  | failed (msg : String) : AttemptRes
deriving DecidableEq

/-- Environment of one `sendIx` call.  `blockhashes i` is the value
`getLatestBlockhash` returns at attempt `i` (fetched anew every attempt);
`attemptRes i` is that attempt's result; the two classifiers stand for the
regular-expression tests on the error message
(`/blockhash.*expired|Blockhash not found/i` and
`/simulate|custom program error/i`). -/
structure SendEnv where
  blockhashes : Nat → Nat
  attemptRes : Nat → AttemptRes
  expiredClass : String → Bool
  programClass : String → Bool

/-- One freshly built and signed transaction: the `new Transaction()` of an
attempt, carrying that attempt's blockhash and the instruction payload. -/
structure TxBuild where
  blockhash : Nat
  ixData : List Nat
deriving DecidableEq

inductive SendOutcome where
  | success (sig : Nat) : SendOutcome
  | classified (category : String) (msg : String) : SendOutcome
  | exhausted : SendOutcome
deriving DecidableEq

/-- The attempt loop of `sendIx`, from attempt number `attempt` with the
given fuel (the loop bound is 3).  Returns the outcome and the list of
transactions built (one per attempt made, in order).  A non-expiry-class
failure, or any failure on the last attempt, throws the classified error;
an expiry-class failure before the last attempt restarts with a fresh
blockhash. -/
def sendIxAux (env : SendEnv) (ixData : List Nat) :
    Nat → Nat → SendOutcome × List TxBuild
  | 0, _ => (.exhausted, [])
  | fuel+1, attempt =>
    let tx : TxBuild := { blockhash := env.blockhashes attempt, ixData := ixData }
    match env.attemptRes attempt with
    | .confirmed sig => (.success sig, [tx])
    | .failed msg =>
      if env.expiredClass msg ∧ attempt ≠ 2 then
        let rest := sendIxAux env ixData fuel (attempt + 1)
        (rest.1, tx :: rest.2)
      else
        (.classified (if env.programClass msg then "program" else "rpc") msg, [tx])

/-- `sendIx`: the loop entered at attempt 0 with bound 3. -/
def sendIx (env : SendEnv) (ixData : List Nat) : SendOutcome × List TxBuild :=
  sendIxAux env ixData 3 0

/-! ### Service operations -/

/-- Remote-world environment of one distribution / refund call.  Each field
is what the corresponding remote call would return: `stateData` the state
account's bytes (`none` = absent), `stateOwnerOk` whether the account is
owned by the program, `lamports` the balance read (`none` = account gone),
`rentFloor` the rent-exemption floor, `sendResult` the outcome of the
transaction pipeline if reached. -/
structure OpEnv where
  stateData : Option (List Nat)
  stateOwnerOk : Bool
  softFail : Bool
  lamports : Option Nat
  rentFloor : Nat
  now : Nat
  idemCache : IdemCache
  sendResult : Except String Nat

inductive OpOutcome where
  | alreadyPaid : OpOutcome
  | cachedResult (r : Nat) : OpOutcome
  | submitted (sig : Nat) (participants : List (List Nat)) : OpOutcome
  | failed (code : String) : OpOutcome
deriving DecidableEq

/-- Whether an outcome is reported as an error (a `this.fail` / rethrow)
rather than a success-shaped return value. -/
def OpOutcome.isError : OpOutcome → Bool
  | .failed _ => true
  | _ => false

/-- Result of one operation: its outcome, whether the transaction pipeline
was invoked (`sentTx`), and the remote calls made, in order. -/
structure OpRun where
  outcome : OpOutcome
  sentTx : Bool
  rpcCalls : List String
deriving DecidableEq

/-- `sendBonusToWinnersForChallenge` (body run under the distribution
gate): read state, decode header, return the already-paid success if
`paid`, decode vectors, check winners non-empty and under the 64-account
cap, read balance, check spendable balance positive, consult the
idempotency store, then submit. -/
def sendBonusToWinnersForChallenge (env : OpEnv) (pda : String) : OpRun :=
  let calls0 := ["getAccountInfo"]
  match env.stateData with
  | none => ⟨.failed "STATE_NOT_FOUND", false, calls0⟩
  | some full =>
    if ¬ env.stateOwnerOk then ⟨.failed "INVALID_ACCOUNT_OWNER", false, calls0⟩
    else
      match decodeStateHeader full with
      | .error .tooSmall => ⟨.failed "STATE_TOO_SMALL", false, calls0⟩
      | .error .badDiscriminator => ⟨.failed "BAD_STATE_DISCRIMINATOR", false, calls0⟩
      | .ok hdr =>
        if hdr.paid then ⟨.alreadyPaid, false, calls0⟩
        else
          match safeDecodeVectors full hdr.vecOffset env.softFail with
          | .error _ => ⟨.failed "DECODE_VECTORS_FAILED", false, calls0⟩
          | .ok vecs =>
            if vecs.winnersList.length = 0 then ⟨.failed "NO_WINNERS", false, calls0⟩
            else if vecs.winnersList.length > 64 - 4 then
              ⟨.failed "TOO_MANY_WINNERS_FOR_SINGLE_TX", false, calls0⟩
            else
              let calls1 := calls0 ++ ["getAccountInfo"]
              match env.lamports with
              | none => ⟨.failed "STATE_NOT_FOUND", false, calls1⟩
              | some lam =>
                let calls2 := calls1 ++ ["getMinimumBalanceForRentExemption"]
                let available : Int := (lam : Int) - (env.rentFloor : Int)
                if available ≤ 0 then
                  ⟨.failed "INSUFFICIENT_CONTRACT_BALANCE", false, calls2⟩
                else
                  let scope := "send_bonus:" ++ pda ++ ":" ++ toString hdr.opCounter
                  match (checkIdempotency env.idemCache env.now scope).1 with
                  | some r => ⟨.cachedResult r, false, calls2⟩
                  | none =>
                    let calls3 := calls2 ++ ["sendTransaction"]
                    match env.sendResult with
                    | .ok sig => ⟨.submitted sig vecs.winnersList, true, calls3⟩
                    | .error msg => ⟨.failed msg, true, calls3⟩

/-- `refundForChallenge`: read state, decode header and vectors, check
subscribers non-empty and within the 64-account cap (3 base keys), read
balance, check spendable balance positive, then submit the batch refund.
No paid-flag or idempotency step exists on this path. -/
def refundForChallenge (env : OpEnv) : OpRun :=
  let calls0 := ["getAccountInfo"]
  match env.stateData with
  | none => ⟨.failed "STATE_NOT_FOUND", false, calls0⟩
  | some data =>
    if ¬ env.stateOwnerOk then ⟨.failed "INVALID_ACCOUNT_OWNER", false, calls0⟩
    else
      match decodeStateHeader data with
      | .error .tooSmall => ⟨.failed "STATE_TOO_SMALL", false, calls0⟩
      | .error .badDiscriminator => ⟨.failed "BAD_STATE_DISCRIMINATOR", false, calls0⟩
      | .ok hdr =>
        match safeDecodeVectors data hdr.vecOffset env.softFail with
        | .error _ => ⟨.failed "DECODE_VECTORS_FAILED", false, calls0⟩
        | .ok vecs =>
          let subs := vecs.subscribers
          if subs.length = 0 then ⟨.failed "NO_SUBSCRIBERS", false, calls0⟩
          else if subs.length + 3 > 64 then
            ⟨.failed "TOO_MANY_SUBSCRIBERS_FOR_SINGLE_TX", false, calls0⟩
          else
            let calls1 := calls0 ++ ["getAccountInfo"]
            match env.lamports with
            | none => ⟨.failed "STATE_NOT_FOUND", false, calls1⟩
            | some lam =>
              let calls2 := calls1 ++ ["getMinimumBalanceForRentExemption"]
              let available : Int := (lam : Int) - (env.rentFloor : Int)
              if available ≤ 0 then
                ⟨.failed "INSUFFICIENT_CONTRACT_BALANCE", false, calls2⟩
              else
                let calls3 := calls2 ++ ["sendTransaction"]
                match env.sendResult with
                | .ok sig => ⟨.submitted sig subs, true, calls3⟩
                | .error msg => ⟨.failed msg, true, calls3⟩

/-- Environment of the challenge-creation operation: `existsData` is what
`getAccountInfo(pda)` returns for the derived address. -/
structure InitEnv where
  existsData : Option (List Nat)
  treasuryCfg : Option String
  sendResult : Except String Nat

inductive InitOutcome where
  | alreadyInitialized : InitOutcome
  | submitted (sig : Nat) : InitOutcome
  | failed (code : String) : InitOutcome
deriving DecidableEq

structure InitRun where
  outcome : InitOutcome
  sentTx : Bool
deriving DecidableEq

/-- The challenge-creation operation (`initialize` in the source): validate
commission, and if the derived account already exists, compare parameters
and return either the parameter-mismatch failure or the
already-initialized result — in both cases without submitting; only when
the account is absent is the creating transaction sent. -/
def initChallenge (env : InitEnv) (challengeId fee commision : Nat) : InitRun :=
  if commision > 100 then ⟨.failed "BAD_INPUT", false⟩
  else
    match env.existsData with
    | some d =>
      match decodeStateHeader d with
      | .error _ => ⟨.failed "DECODE_EXCEPTION", false⟩
      | .ok hdr =>
        if hdr.fee ≠ fee ∨ hdr.commission ≠ commision ∨ hdr.challengeId ≠ challengeId then
          ⟨.failed "ALREADY_INITIALIZED_DIFFERENT_PARAMS", false⟩
        else ⟨.alreadyInitialized, false⟩
    | none =>
      match env.treasuryCfg with
      | none => ⟨.failed "TREASURY_PUBKEY_MISSING", false⟩
      | some _ =>
        match env.sendResult with
        | .ok sig => ⟨.submitted sig, true⟩
        | .error msg => ⟨.failed msg, true⟩

/-- Environment of `buildSubscribeTxForChallenge`. -/
structure SubEnv where
  subscriberValid : Bool
  subscriber : List Nat
  stateData : Option (List Nat)
  stateOwnerOk : Bool
  blockhash : Nat

inductive SubOutcome where
  | builtTx (payer : List Nat) (ixData : List Nat) (blockhash : Nat) : SubOutcome
  | failed (code : String) : SubOutcome
deriving DecidableEq

/-- `buildSubscribeTxForChallenge` (body run under the build gate):
validate the subscriber key, load and decode the state, require status
PENDING (0), then build the unsigned subscribe transaction. -/
def buildSubscribeTxForChallenge (env : SubEnv) : SubOutcome :=
  if ¬ env.subscriberValid then .failed "BAD_INPUT"
  else
    match env.stateData with
    | none => .failed "STATE_NOT_FOUND"
    | some data =>
      if ¬ env.stateOwnerOk then .failed "INVALID_ACCOUNT_OWNER"
      else
        match decodeStateHeader data with
        | .error _ => .failed "DECODE_HEADER_FAILED"
        | .ok hdr =>
          if hdr.status ≠ 0 then .failed "CHALLENGE_NOT_OPEN"
          else .builtTx env.subscriber SUBSCRIBE_DISC env.blockhash

/-! ### Theorems -/

/-- C3: For every byte buffer, the state decoder proceeds in order: it
fails with the too-small error if the buffer is shorter than the minimum
fixed-header size (101); it fails with the bad-discriminator error if the
first 8 bytes differ from the expected type tag; otherwise it parses the
fixed fields sequentially with no padding (1-byte version at 8, 1-byte
bump at 9, 8-byte LE challengeId at 10, 8-byte fee at 18, 1-byte
commission at 26, 1-byte status at 27, 32-byte owner at 28, 32-byte
treasury at 60, 1-byte paid at 92, 8-byte opCounter at 93) and records
`vecOffset = 101`. -/
theorem decodeStateHeader_sequential (data : List Nat) :
    (data.length < 101 → decodeStateHeader data = .error .tooSmall) ∧
    (101 ≤ data.length → data.take 8 ≠ STATE_DISC →
      decodeStateHeader data = .error .badDiscriminator) ∧
    (101 ≤ data.length → data.take 8 = STATE_DISC →
      decodeStateHeader data = .ok
        { version := readU8 data 8, bump := readU8 data 9,
          challengeId := u64le data 10, fee := u64le data 18,
          commission := readU8 data 26, status := readU8 data 27,
          owner := slice32 data 28, treasury := slice32 data 60,
          paid := readU8 data 92 ≠ 0, opCounter := u64le data 93,
          vecOffset := 101 }) := by
  refine ⟨fun h => ?_, fun h h2 => ?_, fun h h2 => ?_⟩
  · unfold decodeStateHeader
    rw [if_pos (show data.length < 8 + 93 by omega)]
  · unfold decodeStateHeader
    rw [if_neg (show ¬ data.length < 8 + 93 by omega), if_pos h2]
  · unfold decodeStateHeader
    rw [if_neg (show ¬ data.length < 8 + 93 by omega),
        if_neg (show ¬ data.take 8 ≠ STATE_DISC by simp [h2])]
    rfl

/-- If the 4-byte little-endian length read at `o` succeeds and the
declared length times 32 exceeds the bytes remaining after the length
field, `readVecPkSafe` throws the bad-length error. -/
theorem readVecPkSafe_len_overflow (data : List Nat) (o len : Nat)
    (hlen : readU32LE data o = some len)
    (hover : data.length - (o + 4) < 32 * len) :
    readVecPkSafe data o = .error (.badLength len ((data.length - (o + 4)) / 32)) := by
  have hdiv : (data.length - (o + 4)) / 32 < len := by
    rw [Nat.div_lt_iff_lt_mul (by norm_num)]
    omega
  simp only [readVecPkSafe, hlen, gt_iff_lt]
  rw [if_pos hdiv]

/-- C1: For every input byte buffer and each of the three address vectors
read in fixed order (owners at position 0, subscribers at 1, winners at
2), if the vector's 4-byte little-endian declared length times the
32-byte element width exceeds the bytes remaining after the length field,
decoding the vectors fails with the bad-vector-length error in the
default (non-soft-fail) mode — no truncation, no empty-list substitution
— for all buffer sizes. -/
theorem safeDecodeVectors_badLength (data : List Nat) (vecOffset k o len : Nat)
    (hk : k < 3) (hstart : vecStartOffset data vecOffset k = some o)
    (hlen : readU32LE data o = some len)
    (hover : data.length - (o + 4) < 32 * len) :
    safeDecodeVectors data vecOffset false =
      .error (.badLength len ((data.length - (o + 4)) / 32)) := by
  have hbad := readVecPkSafe_len_overflow data o len hlen hover
  interval_cases k
  · simp only [vecStartOffset, Option.some.injEq] at hstart
    subst hstart
    simp only [safeDecodeVectors, hbad]
    rfl
  · simp only [vecStartOffset] at hstart
    cases h1 : readVecPkSafe data vecOffset with
    | error e => rw [h1] at hstart; exact absurd hstart (by simp)
    | ok r1 =>
      rw [h1] at hstart
      rw [Option.some.injEq] at hstart
      subst hstart
      simp only [safeDecodeVectors, h1, hbad]
      rfl
  · simp only [vecStartOffset] at hstart
    cases h1 : readVecPkSafe data vecOffset with
    | error e => rw [h1] at hstart; exact absurd hstart (by simp)
    | ok r1 =>
      rw [h1] at hstart
      dsimp only at hstart
      cases h2 : readVecPkSafe data r1.2 with
      | error e => rw [h2] at hstart; exact absurd hstart (by simp)
      | ok r2 =>
        rw [h2] at hstart
        rw [Option.some.injEq] at hstart
        subst hstart
        simp only [safeDecodeVectors, h1, h2, hbad]
        rfl

/-- A 105-byte buffer: a minimum-size valid header followed by a lone
4-byte vector length declaring 2 elements with 0 bytes remaining. -/
def c1Buf : List Nat :=
  STATE_DISC ++ [1, 255] ++ [7, 0, 0, 0, 0, 0, 0, 0] ++
  [64, 66, 15, 0, 0, 0, 0, 0] ++ [10, 0] ++ List.replicate 32 3 ++
  List.replicate 32 4 ++ [0] ++ [5, 0, 0, 0, 0, 0, 0, 0] ++ [2, 0, 0, 0]

/-- Witness for C1: at the smallest buffer that still holds a length field
(minimum header size + 4), a declared owners-length of 2 with 0 bytes
remaining fails with the bad-length error. -/
theorem safeDecodeVectors_badLength_witness :
    safeDecodeVectors c1Buf 101 false = .error (.badLength 2 0) :=
  safeDecodeVectors_badLength c1Buf 101 0 101 2 (by decide) (by decide)
    (by decide) (by decide)

/-- A concrete minimal-size (101-byte) state buffer used to witness C3. -/
def c3Buf : List Nat :=
  STATE_DISC ++ [1, 255] ++ [7, 0, 0, 0, 0, 0, 0, 0] ++
  [64, 66, 15, 0, 0, 0, 0, 0] ++ [10, 0] ++ List.replicate 32 3 ++
  List.replicate 32 4 ++ [1] ++ [5, 0, 0, 0, 0, 0, 0, 0]

/-- Witness for C3 at a concrete minimal-size buffer (101 bytes): the
header fields land at the stated offsets. -/
theorem decodeStateHeader_sequential_witness :
    decodeStateHeader c3Buf =
    .ok { version := 1, bump := 255, challengeId := 7, fee := 1000000,
          commission := 10, status := 0, owner := List.replicate 32 3,
          treasury := List.replicate 32 4, paid := true, opCounter := 5,
          vecOffset := 101 } :=
  (decodeStateHeader_sequential c3Buf).2.2 (by decide) (by decide)

/-- One gate step keeps the in-flight count under capacity and never
changes the capacity. -/
theorem gateStep_le (s : GateState) (e : GateEvent) (h : s.inFlight ≤ s.max) :
    (gateStep s e).inFlight ≤ (gateStep s e).max ∧ (gateStep s e).max = s.max := by
  cases e with
  | arrive wid =>
    simp only [gateStep, gateAcquire]
    split
    next hlt => exact ⟨hlt, rfl⟩
    next hge =>
      split
      · exact ⟨h, rfl⟩
      · exact ⟨h, rfl⟩
  | complete =>
    simp only [gateStep, gateRelease]
    split
    · exact ⟨h, rfl⟩
    next hne =>
      cases hq : s.q with
      | nil => exact ⟨show s.inFlight - 1 ≤ s.max by omega, rfl⟩
      | cons w rest => exact ⟨show s.inFlight - 1 + 1 ≤ s.max by omega, rfl⟩

/-- The invariant holds along any event sequence. -/
theorem gateFold_le (evs : List GateEvent) (s : GateState) (h : s.inFlight ≤ s.max) :
    (evs.foldl gateStep s).inFlight ≤ (evs.foldl gateStep s).max ∧
    (evs.foldl gateStep s).max = s.max := by
  induction evs generalizing s with
  | nil => exact ⟨h, rfl⟩
  | cons e rest ih =>
    simp only [List.foldl_cons]
    obtain ⟨h1, h2⟩ := gateStep_le s e h
    obtain ⟨g1, g2⟩ := ih (gateStep s e) h1
    exact ⟨g1, g2.trans h2⟩

/-- C4: For a gate of capacity `m`, (1) along every sequence of arrivals
and completions from the idle state, at no instant do more than `m`
operations hold a slot; (2) a release resumes the first-in waiter and
leaves the rest in order (FIFO); (3) when the gate is full and the wait
queue already exceeds the 1000-entry cap, `acquire` fails fast with the
overflow error and enqueues nothing; (4) `run` applies the same
slot-release to the state whether the operation returned or raised, and
(5) with no waiters the slot count returns to its pre-call value while the
operation's result (including an error) is propagated. -/
theorem gate_concurrency_contract (m : Nat) :
    (∀ evs : List GateEvent, (gateRun m evs).inFlight ≤ m) ∧
    (∀ s : GateState, ∀ w : Nat, ∀ rest : List Nat, s.q = w :: rest →
        (gateRelease s).1 = some w ∧ (gateRelease s).2.q = rest) ∧
    (∀ s : GateState, ∀ wid : Nat, s.max ≤ s.inFlight → 1000 < s.q.length →
        gateAcquire s wid = (.overflow, s)) ∧
    (∀ s : GateState, ∀ res res' : Except String Nat,
        (gateRunOp s res).2 = (gateRunOp s res').2) ∧
    (∀ s : GateState, ∀ res : Except String Nat, s.q = [] →
        (gateRunOp s res).2.inFlight = s.inFlight ∧ (gateRunOp s res).1 = res) := by
  refine ⟨fun evs => ?_, fun s w rest hq => ?_, fun s wid hfull hcap => ?_,
      fun s res res' => rfl, fun s res hq => ?_⟩
  · obtain ⟨h1, h2⟩ :=
      gateFold_le evs { max := m, inFlight := 0, q := [] } (Nat.zero_le m)
    rw [gateRun]
    rw [show ({ max := m, inFlight := 0, q := [] } : GateState).max = m from rfl] at h2
    omega
  · simp [gateRelease, hq]
  · simp only [gateAcquire]
    rw [if_neg (by omega), if_pos (by omega)]
  · refine ⟨?_, rfl⟩
    simp [gateRunOp, gateRelease, hq]

/-- Witness for C4: a capacity-2 gate with three arrivals and one
completion stays at ≤ 2 in flight; releasing with waiters 5 and 6 resumes
5; a full gate with 1001 waiters overflows; the post-state of `run` is the
same for a success and for a raised error, and the slot count is
restored. -/
theorem gate_concurrency_contract_witness :
    (gateRun 2 [.arrive 0, .arrive 1, .arrive 2, .complete]).inFlight ≤ 2 ∧
    (gateRelease ⟨2, 2, [5, 6]⟩).1 = some 5 ∧
    gateAcquire ⟨1, 1, List.replicate 1001 9⟩ 7 =
      (.overflow, ⟨1, 1, List.replicate 1001 9⟩) ∧
    (gateRunOp ⟨2, 1, []⟩ (.ok 3)).2 = (gateRunOp ⟨2, 1, []⟩ (.error "boom")).2 ∧
    (gateRunOp ⟨2, 1, []⟩ (.error "boom")).2.inFlight = 1 :=
  ⟨(gate_concurrency_contract 2).1 _,
   ((gate_concurrency_contract 2).2.1 ⟨2, 2, [5, 6]⟩ 5 [6] rfl).1,
   (gate_concurrency_contract 1).2.2.1 ⟨1, 1, List.replicate 1001 9⟩ 7
     (Nat.le_refl 1) (by rw [show (⟨1, 1, List.replicate 1001 9⟩ : GateState).q
        = List.replicate 1001 9 from rfl, List.length_replicate]; omega),
   (gate_concurrency_contract 2).2.2.2.1 ⟨2, 1, []⟩ (.ok 3) (.error "boom"),
   ((gate_concurrency_contract 2).2.2.2.2 ⟨2, 1, []⟩ (.error "boom") rfl).1⟩

/-- The attempt loop never makes more attempts than its fuel. -/
theorem sendIxAux_length (env : SendEnv) (ixData : List Nat) :
    ∀ fuel attempt, (sendIxAux env ixData fuel attempt).2.length ≤ fuel := by
  intro fuel
  induction fuel with
  | zero => intro attempt; simp [sendIxAux]
  | succ n ih =>
    intro attempt
    rcases hres : env.attemptRes attempt with sig | msg
    · simp [sendIxAux, hres]
    · simp only [sendIxAux, hres]
      by_cases hc : env.expiredClass msg = true ∧ attempt ≠ 2
      · rw [if_pos hc]
        have := ih (attempt + 1)
        dsimp only
        simp only [List.length_cons]
        omega
      · rw [if_neg hc]
        simp

/-- Every attempt the loop makes builds its transaction from that
attempt's freshly fetched blockhash. -/
theorem sendIxAux_fresh (env : SendEnv) (ixData : List Nat) :
    ∀ fuel attempt i, i < (sendIxAux env ixData fuel attempt).2.length →
      (sendIxAux env ixData fuel attempt).2.getD i ⟨0, []⟩ =
        { blockhash := env.blockhashes (attempt + i), ixData := ixData } := by
  intro fuel
  induction fuel with
  | zero => intro attempt i h; simp [sendIxAux] at h
  | succ n ih =>
    intro attempt i h
    rcases hres : env.attemptRes attempt with sig | msg
    · simp only [sendIxAux, hres] at h ⊢
      have hi : i = 0 := by simpa using h
      subst hi
      rfl
    · simp only [sendIxAux, hres] at h ⊢
      by_cases hc : env.expiredClass msg = true ∧ attempt ≠ 2
      · rw [if_pos hc] at h ⊢
        dsimp only at h ⊢
        cases i with
        | zero => rfl
        | succ j =>
          simp only [List.getD_cons_succ]
          have hj : j < (sendIxAux env ixData n (attempt + 1)).2.length := by
            simp only [List.length_cons] at h
            omega
          rw [show attempt + (j + 1) = attempt + 1 + j by omega]
          exact ih (attempt + 1) j hj
      · rw [if_neg hc] at h ⊢
        dsimp only at h ⊢
        have hi : i = 0 := by simpa using h
        subst hi
        rfl

/-- C5: The transaction submission loop (`sendIx`) makes at most 3
attempts; every attempt it makes rebuilds the transaction with the
blockhash freshly fetched for that attempt (attempt `i` is signed over
blockhash number `i`, so no signature is reused across attempts); a
non-expiry-class failure halts the loop at that attempt with the
classified (program vs rpc) error; an expiry-class failure before the
last attempt restarts from scratch at the next attempt. -/
theorem sendIx_retry_contract (env : SendEnv) (ixData : List Nat) :
    ((sendIx env ixData).2.length ≤ 3) ∧
    (∀ i, i < (sendIx env ixData).2.length →
      (sendIx env ixData).2.getD i ⟨0, []⟩ =
        { blockhash := env.blockhashes i, ixData := ixData }) ∧
    (∀ fuel attempt msg, env.attemptRes attempt = .failed msg →
      (env.expiredClass msg = false ∨ attempt = 2) →
      sendIxAux env ixData (fuel + 1) attempt =
        (.classified (if env.programClass msg then "program" else "rpc") msg,
         [{ blockhash := env.blockhashes attempt, ixData := ixData }])) ∧
    (∀ fuel attempt msg, env.attemptRes attempt = .failed msg →
      env.expiredClass msg = true → attempt ≠ 2 →
      sendIxAux env ixData (fuel + 1) attempt =
        ((sendIxAux env ixData fuel (attempt + 1)).1,
         { blockhash := env.blockhashes attempt, ixData := ixData } ::
           (sendIxAux env ixData fuel (attempt + 1)).2)) := by
  refine ⟨sendIxAux_length env ixData 3 0,
    fun i h => by have := sendIxAux_fresh env ixData 3 0 i h; simpa using this,
    fun fuel attempt msg hres hstop => ?_, fun fuel attempt msg hres hexp hne => ?_⟩
  · simp only [sendIxAux, hres]
    rw [if_neg (by rcases hstop with h | h <;> simp [h])]
  · simp only [sendIxAux, hres]
    rw [if_pos ⟨hexp, hne⟩]

/-- A concrete environment for the C5 witness: attempt 0 fails with an
expiry-class error, attempt 1 fails with a program error. -/
def c5Env : SendEnv :=
  { blockhashes := fun i => 100 + i,
    attemptRes := fun i =>
      if i = 0 then .failed "Blockhash not found"
      else .failed "custom program error: 0x1",
    expiredClass := fun m => m = "Blockhash not found",
    programClass := fun m => m = "custom program error: 0x1" }

/-- Witness for C5: with an expiry failure at attempt 0 and a program
failure at attempt 1, the loop makes exactly two attempts (≤ 3), each on
its own fresh blockhash, and surfaces the classified program error. -/
theorem sendIx_retry_contract_witness :
    ((sendIx c5Env [9]).2.length ≤ 3) ∧
    ((sendIx c5Env [9]).2.getD 1 ⟨0, []⟩ =
      { blockhash := 101, ixData := [9] }) ∧
    (sendIxAux c5Env [9] 2 1 =
      (.classified "program" "custom program error: 0x1",
       [{ blockhash := 101, ixData := [9] }])) ∧
    (sendIxAux c5Env [9] 3 0 =
      ((sendIxAux c5Env [9] 2 1).1,
       { blockhash := 100, ixData := [9] } :: (sendIxAux c5Env [9] 2 1).2)) :=
  ⟨(sendIx_retry_contract c5Env [9]).1,
   (sendIx_retry_contract c5Env [9]).2.1 1 (by decide),
   (sendIx_retry_contract c5Env [9]).2.2.1 1 1 "custom program error: 0x1"
     (by decide) (.inl (by decide)),
   (sendIx_retry_contract c5Env [9]).2.2.2 2 0 "Blockhash not found"
     (by decide) (by decide) (by decide)⟩

/-- C2: For every environment in which the freshly re-read state decodes
with the paid flag set, `sendBonusToWinnersForChallenge` returns the
success-shaped already-done result after the single state read, invokes
the transaction pipeline zero times, and the already-paid outcome is not
an error. -/
theorem sendBonus_alreadyPaid (env : OpEnv) (pda : String) (full : List Nat)
    (hdr : StateHeader) (hdata : env.stateData = some full)
    (hown : env.stateOwnerOk = true) (hdec : decodeStateHeader full = .ok hdr)
    (hpaid : hdr.paid = true) :
    sendBonusToWinnersForChallenge env pda =
      ⟨.alreadyPaid, false, ["getAccountInfo"]⟩ ∧
    OpOutcome.alreadyPaid.isError = false := by
  refine ⟨?_, rfl⟩
  simp only [sendBonusToWinnersForChallenge, hdata, hown, hdec, hpaid]
  simp

/-- Environment for the C2 witness: the re-read state is `c3Buf`, whose
paid byte is 1. -/
def c2Env : OpEnv :=
  { stateData := some c3Buf, stateOwnerOk := true, softFail := false,
    lamports := some 0, rentFloor := 0, now := 0, idemCache := [],
    sendResult := .ok 1 }

/-- Witness for C2 at a concrete paid state. -/
theorem sendBonus_alreadyPaid_witness :
    sendBonusToWinnersForChallenge c2Env "PDA" =
      ⟨.alreadyPaid, false, ["getAccountInfo"]⟩ ∧
    OpOutcome.alreadyPaid.isError = false :=
  sendBonus_alreadyPaid c2Env "PDA" c3Buf
    { version := 1, bump := 255, challengeId := 7, fee := 1000000,
      commission := 10, status := 0, owner := List.replicate 32 3,
      treasury := List.replicate 32 4, paid := true, opCounter := 5,
      vecOffset := 101 }
    rfl rfl (by rfl) rfl

/-- C6: For every distribution or batch-refund environment that reaches
the balance check (state present and decodable, not yet paid, participant
list non-empty and within the account cap), if the balance is at most the
minimum-reserve floor — in particular equal to it, making the spendable
balance non-positive — the operation fails with the
insufficient-contract-balance error and the transaction pipeline is never
invoked. -/
theorem insufficient_balance_guard :
    (∀ (env : OpEnv) (pda : String) (full : List Nat) (hdr : StateHeader)
        (vecs : Vectors) (lam : Nat),
      env.stateData = some full → env.stateOwnerOk = true →
      decodeStateHeader full = .ok hdr → hdr.paid = false →
      safeDecodeVectors full hdr.vecOffset env.softFail = .ok vecs →
      vecs.winnersList.length ≠ 0 → vecs.winnersList.length ≤ 60 →
      env.lamports = some lam → lam ≤ env.rentFloor →
      sendBonusToWinnersForChallenge env pda =
        ⟨.failed "INSUFFICIENT_CONTRACT_BALANCE", false,
         ["getAccountInfo", "getAccountInfo", "getMinimumBalanceForRentExemption"]⟩) ∧
    (∀ (env : OpEnv) (full : List Nat) (hdr : StateHeader)
        (vecs : Vectors) (lam : Nat),
      env.stateData = some full → env.stateOwnerOk = true →
      decodeStateHeader full = .ok hdr →
      safeDecodeVectors full hdr.vecOffset env.softFail = .ok vecs →
      vecs.subscribers.length ≠ 0 → vecs.subscribers.length + 3 ≤ 64 →
      env.lamports = some lam → lam ≤ env.rentFloor →
      refundForChallenge env =
        ⟨.failed "INSUFFICIENT_CONTRACT_BALANCE", false,
         ["getAccountInfo", "getAccountInfo", "getMinimumBalanceForRentExemption"]⟩) := by
  constructor
  · intro env pda full hdr vecs lam hdata hown hdec hpaid hvec hw1 hw2 hlam hbal
    simp only [sendBonusToWinnersForChallenge, hdata, hown, hdec, hpaid, hvec, hlam]
    rw [if_neg (show ¬ ¬ True by simp)]
    rw [if_neg (show ¬ (false = true) by simp)]
    rw [if_neg hw1]
    rw [if_neg (show ¬ vecs.winnersList.length > 64 - 4 by omega)]
    rw [if_pos (show (lam : Int) - (env.rentFloor : Int) ≤ 0 by omega)]
    rfl
  · intro env full hdr vecs lam hdata hown hdec hvec hs1 hs2 hlam hbal
    simp only [refundForChallenge, hdata, hown, hdec, hvec, hlam]
    rw [if_neg (show ¬ ¬ True by simp)]
    rw [if_neg hs1]
    rw [if_neg (show ¬ vecs.subscribers.length + 3 > 64 by omega)]
    rw [if_pos (show (lam : Int) - (env.rentFloor : Int) ≤ 0 by omega)]
    rfl

/-- An unpaid state with one winner and no subscribers, for the C6
distribution witness. -/
def c6Buf : List Nat :=
  STATE_DISC ++ [1, 255] ++ [7, 0, 0, 0, 0, 0, 0, 0] ++
  [64, 66, 15, 0, 0, 0, 0, 0] ++ [10, 0] ++ List.replicate 32 3 ++
  List.replicate 32 4 ++ [0] ++ [5, 0, 0, 0, 0, 0, 0, 0] ++
  [0, 0, 0, 0] ++ [0, 0, 0, 0] ++ [1, 0, 0, 0] ++ List.replicate 32 9

/-- An unpaid state with one subscriber and no winners, for the C6 refund
witness. -/
def c6RefBuf : List Nat :=
  STATE_DISC ++ [1, 255] ++ [7, 0, 0, 0, 0, 0, 0, 0] ++
  [64, 66, 15, 0, 0, 0, 0, 0] ++ [10, 0] ++ List.replicate 32 3 ++
  List.replicate 32 4 ++ [0] ++ [5, 0, 0, 0, 0, 0, 0, 0] ++
  [0, 0, 0, 0] ++ [1, 0, 0, 0] ++ List.replicate 32 9 ++ [0, 0, 0, 0]

/-- Environment whose balance equals the minimum-reserve floor exactly. -/
def c6Env : OpEnv :=
  { stateData := some c6Buf, stateOwnerOk := true, softFail := false,
    lamports := some 27290160, rentFloor := 27290160, now := 0,
    idemCache := [], sendResult := .ok 1 }

/-- The same exact-floor balance on the refund path. -/
def c6RefEnv : OpEnv :=
  { stateData := some c6RefBuf, stateOwnerOk := true, softFail := false,
    lamports := some 27290160, rentFloor := 27290160, now := 0,
    idemCache := [], sendResult := .ok 1 }

/-- Witness for C6: with the balance exactly at the floor, both paths fail
with the insufficient-balance error and submit nothing. -/
theorem insufficient_balance_guard_witness :
    sendBonusToWinnersForChallenge c6Env "PDA" =
      ⟨.failed "INSUFFICIENT_CONTRACT_BALANCE", false,
       ["getAccountInfo", "getAccountInfo", "getMinimumBalanceForRentExemption"]⟩ ∧
    refundForChallenge c6RefEnv =
      ⟨.failed "INSUFFICIENT_CONTRACT_BALANCE", false,
       ["getAccountInfo", "getAccountInfo", "getMinimumBalanceForRentExemption"]⟩ :=
  ⟨insufficient_balance_guard.1 c6Env "PDA" c6Buf
    { version := 1, bump := 255, challengeId := 7, fee := 1000000,
      commission := 10, status := 0, owner := List.replicate 32 3,
      treasury := List.replicate 32 4, paid := false, opCounter := 5,
      vecOffset := 101 }
    { owners := [], subscribers := [], winnersList := [List.replicate 32 9] }
    27290160 rfl rfl (by rfl) rfl (by rfl) (by decide) (by decide) rfl
    (by decide),
   insufficient_balance_guard.2 c6RefEnv c6RefBuf
    { version := 1, bump := 255, challengeId := 7, fee := 1000000,
      commission := 10, status := 0, owner := List.replicate 32 3,
      treasury := List.replicate 32 4, paid := false, opCounter := 5,
      vecOffset := 101 }
    { owners := [], subscribers := [List.replicate 32 9], winnersList := [] }
    27290160 rfl rfl (by rfl) (by rfl) (by decide) (by decide) rfl
    (by decide)⟩

/-- `readPks` always returns exactly the declared number of elements. -/
theorem readPks_length (buf : List Nat) :
    ∀ n o, (readPks buf o n).length = n := by
  intro n
  induction n with
  | zero => intro o; rfl
  | succ m ih => intro o; simp [readPks, ih (o + 32)]

/-- The first 113 bytes of the 61-winner state: full header, empty owners
and subscribers vectors, and a winners length field of 61. -/
def c7Head : List Nat :=
  STATE_DISC ++ [1, 255] ++ [7, 0, 0, 0, 0, 0, 0, 0] ++
  [64, 66, 15, 0, 0, 0, 0, 0] ++ [10, 0] ++ List.replicate 32 3 ++
  List.replicate 32 4 ++ [0] ++ [5, 0, 0, 0, 0, 0, 0, 0] ++
  [0, 0, 0, 0] ++ [0, 0, 0, 0] ++ [61, 0, 0, 0]

/-- An unpaid state carrying 61 winners (61 + 4 base keys > 64). -/
def c7Buf : List Nat := c7Head ++ List.replicate (61 * 32) 7

theorem c7Buf_length : c7Buf.length = 2065 := by
  simp [c7Buf, c7Head, STATE_DISC]

theorem c7_hdec : decodeStateHeader c7Buf = .ok
    { version := 1, bump := 255, challengeId := 7, fee := 1000000,
      commission := 10, status := 0, owner := List.replicate 32 3,
      treasury := List.replicate 32 4, paid := false, opCounter := 5,
      vecOffset := 101 } := by
  unfold decodeStateHeader
  rw [if_neg (show ¬ c7Buf.length < 8 + 93 by rw [c7Buf_length]; omega)]
  rw [if_neg (show ¬ c7Buf.take 8 ≠ STATE_DISC from by
    rw [show c7Buf.take 8 = STATE_DISC from rfl]; simp)]
  rfl

theorem c7_hr1 : readVecPkSafe c7Buf 101 = .ok ([], 105) := by
  unfold readVecPkSafe
  rw [show readU32LE c7Buf 101 = some 0 from by
    unfold readU32LE
    rw [if_pos (show 101 + 4 ≤ c7Buf.length by rw [c7Buf_length]; omega)]
    rfl]
  dsimp only
  rw [if_neg (show ¬ (0 : Nat) > (c7Buf.length - (101 + 4)) / 32 by omega)]
  rfl

theorem c7_hr2 : readVecPkSafe c7Buf 105 = .ok ([], 109) := by
  unfold readVecPkSafe
  rw [show readU32LE c7Buf 105 = some 0 from by
    unfold readU32LE
    rw [if_pos (show 105 + 4 ≤ c7Buf.length by rw [c7Buf_length]; omega)]
    rfl]
  dsimp only
  rw [if_neg (show ¬ (0 : Nat) > (c7Buf.length - (105 + 4)) / 32 by omega)]
  rfl

theorem c7_hr3 : readVecPkSafe c7Buf 109 =
    .ok (readPks c7Buf 113 61, 2065) := by
  unfold readVecPkSafe
  rw [show readU32LE c7Buf 109 = some 61 from by
    unfold readU32LE
    rw [if_pos (show 109 + 4 ≤ c7Buf.length by rw [c7Buf_length]; omega)]
    rfl]
  dsimp only
  rw [if_neg (show ¬ (61 : Nat) > (c7Buf.length - (109 + 4)) / 32 by
    rw [c7Buf_length]; norm_num)]

theorem c7_hvec : safeDecodeVectors c7Buf 101 false =
    .ok { owners := [], subscribers := [],
          winnersList := readPks c7Buf 113 61 } := by
  unfold safeDecodeVectors
  rw [c7_hr1]
  dsimp only
  rw [c7_hr2]
  dsimp only
  rw [c7_hr3]

/-- Environment serving the 61-winner state. -/
def c7Env : OpEnv :=
  { stateData := some c7Buf, stateOwnerOk := true, softFail := false,
    lamports := some 1000000000, rentFloor := 0, now := 0, idemCache := [],
    sendResult := .ok 1 }

/-- Generic form of the too-many-winners failure of the distribution. -/
theorem sendBonus_tooMany_run (env : OpEnv) (pda : String) (full : List Nat)
    (hdr : StateHeader) (vecs : Vectors)
    (hdata : env.stateData = some full) (hown : env.stateOwnerOk = true)
    (hdec : decodeStateHeader full = .ok hdr) (hpaid : hdr.paid = false)
    (hvec : safeDecodeVectors full hdr.vecOffset env.softFail = .ok vecs)
    (hw1 : vecs.winnersList.length ≠ 0) (hw2 : vecs.winnersList.length + 4 > 64) :
    sendBonusToWinnersForChallenge env pda =
      ⟨.failed "TOO_MANY_WINNERS_FOR_SINGLE_TX", false, ["getAccountInfo"]⟩ := by
  simp only [sendBonusToWinnersForChallenge, hdata, hown, hdec, hpaid, hvec]
  rw [if_neg (show ¬ ¬ True by simp)]
  rw [if_neg (show ¬ (false = true) by simp)]
  rw [if_neg hw1]
  rw [if_pos (show vecs.winnersList.length > 64 - 4 by omega)]

/-- Generic form of the too-many-subscribers failure of the batch refund. -/
theorem refund_tooMany_run (env : OpEnv) (full : List Nat)
    (hdr : StateHeader) (vecs : Vectors)
    (hdata : env.stateData = some full) (hown : env.stateOwnerOk = true)
    (hdec : decodeStateHeader full = .ok hdr)
    (hvec : safeDecodeVectors full hdr.vecOffset env.softFail = .ok vecs)
    (hs1 : vecs.subscribers.length ≠ 0) (hs2 : vecs.subscribers.length + 3 > 64) :
    refundForChallenge env =
      ⟨.failed "TOO_MANY_SUBSCRIBERS_FOR_SINGLE_TX", false, ["getAccountInfo"]⟩ := by
  simp only [refundForChallenge, hdata, hown, hdec, hvec]
  rw [if_neg (show ¬ ¬ True by simp)]
  rw [if_neg hs1]
  rw [if_pos (show vecs.subscribers.length + 3 > 64 by omega)]

/-- The failing run of the distribution on the 61-winner state, computed
once and shared by the counterexample and the witness. -/
theorem c7_run : sendBonusToWinnersForChallenge c7Env "PDA" =
    ⟨.failed "TOO_MANY_WINNERS_FOR_SINGLE_TX", false, ["getAccountInfo"]⟩ :=
  sendBonus_tooMany_run c7Env "PDA" c7Buf
    { version := 1, bump := 255, challengeId := 7, fee := 1000000,
      commission := 10, status := 0, owner := List.replicate 32 3,
      treasury := List.replicate 32 4, paid := false, opCounter := 5,
      vecOffset := 101 }
    { owners := [], subscribers := [], winnersList := readPks c7Buf 113 61 }
    rfl rfl c7_hdec rfl c7_hvec
    (by rw [readPks_length]; omega) (by rw [readPks_length]; omega)

/-- Counterexample for C7 as stated: with 61 winners the distribution does
fail with the too-many-participants error, but only after the state-read
remote call — the failing run's remote-call trace is non-empty, so the
operation does not fail "before any remote call". -/
theorem too_many_participants_counterexample :
    (sendBonusToWinnersForChallenge c7Env "PDA").outcome =
      .failed "TOO_MANY_WINNERS_FOR_SINGLE_TX" ∧
    (sendBonusToWinnersForChallenge c7Env "PDA").rpcCalls = ["getAccountInfo"] ∧
    (sendBonusToWinnersForChallenge c7Env "PDA").rpcCalls ≠ [] := by
  rw [c7_run]
  exact ⟨rfl, rfl, by simp⟩

/-- C7 (amended): For every distribution or batch-refund environment whose
decoded participant list plus the fixed per-operation account overhead
exceeds the 64-account cap, the operation fails with the
too-many-participants error after only the initial state read — before
the balance query, before the rent query, and before any transaction
submission — and the participant list is never truncated. -/
theorem too_many_participants_guard :
    (∀ (env : OpEnv) (pda : String) (full : List Nat) (hdr : StateHeader)
        (vecs : Vectors),
      env.stateData = some full → env.stateOwnerOk = true →
      decodeStateHeader full = .ok hdr → hdr.paid = false →
      safeDecodeVectors full hdr.vecOffset env.softFail = .ok vecs →
      vecs.winnersList.length ≠ 0 → vecs.winnersList.length + 4 > 64 →
      sendBonusToWinnersForChallenge env pda =
        ⟨.failed "TOO_MANY_WINNERS_FOR_SINGLE_TX", false, ["getAccountInfo"]⟩) ∧
    (∀ (env : OpEnv) (full : List Nat) (hdr : StateHeader) (vecs : Vectors),
      env.stateData = some full → env.stateOwnerOk = true →
      decodeStateHeader full = .ok hdr →
      safeDecodeVectors full hdr.vecOffset env.softFail = .ok vecs →
      vecs.subscribers.length ≠ 0 → vecs.subscribers.length + 3 > 64 →
      refundForChallenge env =
        ⟨.failed "TOO_MANY_SUBSCRIBERS_FOR_SINGLE_TX", false, ["getAccountInfo"]⟩) :=
  ⟨fun env pda full hdr vecs hdata hown hdec hpaid hvec hw1 hw2 =>
    sendBonus_tooMany_run env pda full hdr vecs hdata hown hdec hpaid hvec hw1 hw2,
   fun env full hdr vecs hdata hown hdec hvec hs1 hs2 =>
    refund_tooMany_run env full hdr vecs hdata hown hdec hvec hs1 hs2⟩

/-- Witness for the amended C7: the 61-winner state fails with the
too-many-winners error after only the state read. -/
theorem too_many_participants_guard_witness :
    sendBonusToWinnersForChallenge c7Env "PDA" =
      ⟨.failed "TOO_MANY_WINNERS_FOR_SINGLE_TX", false, ["getAccountInfo"]⟩ :=
  too_many_participants_guard.1 c7Env "PDA" c7Buf
    { version := 1, bump := 255, challengeId := 7, fee := 1000000,
      commission := 10, status := 0, owner := List.replicate 32 3,
      treasury := List.replicate 32 4, paid := false, opCounter := 5,
      vecOffset := 101 }
    { owners := [], subscribers := [],
      winnersList := readPks c7Buf 113 61 }
    rfl rfl c7_hdec rfl c7_hvec
    (by rw [readPks_length]; omega) (by rw [readPks_length]; omega)

/-- Deleting a key removes every binding for it. -/
theorem idemLookup_idemDelete (c : IdemCache) (key : String) :
    idemLookup (idemDelete c key) key = none := by
  induction c with
  | nil => rfl
  | cons kv rest ih =>
    obtain ⟨k, e⟩ := kv
    by_cases hk : k = key
    · simp only [idemDelete, if_pos hk]
      exact ih
    · simp only [idemDelete, if_neg hk, idemLookup, if_neg hk]
      exact ih

/-- Counterexample for C8 as stated: the key `" "` (a single space) is
accepted by `cacheIdempotencyResult` (it is truthy in JavaScript), so a
fresh entry for it exists in the store, yet `checkIdempotency` returns
nothing for it because of the trimmed-empty-key guard — so "returns the
cached result exactly when an entry exists and is within the TTL" fails
for that key. -/
theorem checkIdempotency_counterexample :
    idemLookup (cacheIdempotencyResult [] 0 " " 42) " " = some ⟨42, 0⟩ ∧
    (0 : Nat) - 0 ≤ IDEM_TTL_MS ∧
    (checkIdempotency (cacheIdempotencyResult [] 0 " " 42) 0 " ").1 = none := by
  refine ⟨?_, by decide, ?_⟩ <;> rfl

/-- C8 (amended): For every key that is non-empty after trimming
whitespace, `checkIdempotency` returns the previously cached result
exactly when an entry for that key exists and is not older than the fixed
10-minute TTL; an entry older than the TTL is deleted from the store and
the call is a miss, so a later call with the same key is also a miss
(and therefore performs a fresh execution). -/
theorem checkIdempotency_ttl (c : IdemCache) (now : Nat) (key : String)
    (hkey : isBlankKey key = false) :
    (∀ e, idemLookup c key = some e → now - e.timestamp ≤ IDEM_TTL_MS →
      checkIdempotency c now key = (some e.result, c)) ∧
    (∀ e, idemLookup c key = some e → now - e.timestamp > IDEM_TTL_MS →
      checkIdempotency c now key = (none, idemDelete c key) ∧
      (checkIdempotency (idemDelete c key) now key).1 = none) ∧
    (idemLookup c key = none → checkIdempotency c now key = (none, c)) := by
  refine ⟨fun e he hfresh => ?_, fun e he hold => ⟨?_, ?_⟩, fun hnone => ?_⟩
  · simp only [checkIdempotency, hkey, Bool.false_eq_true, if_false, he]
    rw [if_neg (by omega)]
  · simp only [checkIdempotency, hkey, Bool.false_eq_true, if_false, he]
    rw [if_pos (by omega)]
  · simp only [checkIdempotency, hkey, Bool.false_eq_true, if_false, idemLookup_idemDelete]
  · simp only [checkIdempotency, hkey, Bool.false_eq_true, if_false, hnone]

/-- Witness for the amended C8: a fresh entry under key "k" is returned;
an expired entry is deleted and the repeat call misses; an absent key
misses. -/
theorem checkIdempotency_ttl_witness :
    checkIdempotency [("k", ⟨7, 0⟩)] 1000 "k" = (some 7, [("k", ⟨7, 0⟩)]) ∧
    checkIdempotency [("k", ⟨7, 0⟩)] 600001 "k" = (none, []) ∧
    (checkIdempotency [] 600001 "k").1 = none ∧
    checkIdempotency [] 5 "k" = (none, []) :=
  ⟨(checkIdempotency_ttl [("k", ⟨7, 0⟩)] 1000 "k" (by decide)).1 ⟨7, 0⟩ rfl
     (by decide),
   ((checkIdempotency_ttl [("k", ⟨7, 0⟩)] 600001 "k" (by decide)).2.1 ⟨7, 0⟩ rfl
     (by decide)).1,
   by
    have h := ((checkIdempotency_ttl [("k", ⟨7, 0⟩)] 600001 "k"
      (by decide)).2.1 ⟨7, 0⟩ rfl (by decide)).2
    simpa using h,
   (checkIdempotency_ttl [] 5 "k" (by decide)).2.2 rfl⟩

/-- C9: The creating transaction is only ever sent when the derived
account is absent: for every challenge-creation request whose derived
account address already exists, this layer submits nothing (it returns
either the already-initialized result or a failure), and conversely any
run that did submit saw the account absent. -/
theorem initChallenge_creates_once (env : InitEnv) (cid fee comm : Nat) :
    (∀ d : List Nat, env.existsData = some d →
      (initChallenge env cid fee comm).sentTx = false) ∧
    ((initChallenge env cid fee comm).sentTx = true → env.existsData = none) := by
  constructor
  · intro d hd
    simp only [initChallenge, hd]
    split
    · rfl
    · rcases hdec : decodeStateHeader d with e | hdr
      · rfl
      · dsimp only
        split <;> rfl
  · intro hsent
    rcases hex : env.existsData with _ | d
    · rfl
    · exact absurd hsent (by
        have := (show (∀ d : List Nat, env.existsData = some d →
            (initChallenge env cid fee comm).sentTx = false) from by
          intro d' hd'
          simp only [initChallenge, hd']
          split
          · rfl
          · rcases hdec : decodeStateHeader d' with e | hdr
            · rfl
            · dsimp only
              split <;> rfl) d hex
        simp [this])

/-- Environment for the C9 witness: the derived account already exists
with matching parameters. -/
def c9Env : InitEnv :=
  { existsData := some c3Buf, treasuryCfg := some "T", sendResult := .ok 1 }

/-- Witness for C9: with the account already present, nothing is
submitted. -/
theorem initChallenge_creates_once_witness :
    (initChallenge c9Env 7 1000000 10).sentTx = false :=
  (initChallenge_creates_once c9Env 7 1000000 10).1 c3Buf rfl

/-- C10: For every environment whose loaded state decodes with a status
other than 0 (PENDING), `buildSubscribeTxForChallenge` fails with the
challenge-not-open error and returns no transaction; conversely a
subscribe transaction is only ever built when the decoded status is
PENDING (and its instruction data is the subscribe discriminator). -/
theorem buildSubscribe_pending_only (env : SubEnv) (data : List Nat)
    (hdr : StateHeader) (hdata : env.stateData = some data)
    (hdec : decodeStateHeader data = .ok hdr) :
    (env.subscriberValid = true → env.stateOwnerOk = true → hdr.status ≠ 0 →
      buildSubscribeTxForChallenge env = .failed "CHALLENGE_NOT_OPEN") ∧
    (∀ p ix bh, buildSubscribeTxForChallenge env = .builtTx p ix bh →
      hdr.status = 0 ∧ ix = SUBSCRIBE_DISC) := by
  constructor
  · intro hvalid hown hst
    simp only [buildSubscribeTxForChallenge, hvalid, hdata, hown, hdec]
    rw [if_neg (show ¬ ¬ True by simp)]
    rw [if_neg (show ¬ ¬ True by simp)]
    rw [if_pos hst]
  · intro p ix bh hbuilt
    by_cases hvalid : env.subscriberValid = true
    · by_cases hown : env.stateOwnerOk = true
      · rw [buildSubscribeTxForChallenge] at hbuilt
        simp only [hvalid, hdata, hown, hdec] at hbuilt
        rw [if_neg (show ¬ ¬ True by simp), if_neg (show ¬ ¬ True by simp)]
          at hbuilt
        by_cases hst : hdr.status = 0
        · rw [if_neg (show ¬ hdr.status ≠ 0 by simp [hst])] at hbuilt
          cases hbuilt
          exact ⟨hst, rfl⟩
        · rw [if_pos hst] at hbuilt
          cases hbuilt
      · rw [buildSubscribeTxForChallenge] at hbuilt
        simp only [hvalid, hdata] at hbuilt
        rw [if_pos (show ¬ env.stateOwnerOk = true by simp [hown])] at hbuilt
        cases hbuilt
    · rw [buildSubscribeTxForChallenge] at hbuilt
      rw [if_pos (show ¬ env.subscriberValid = true by simp [hvalid])] at hbuilt
      cases hbuilt

/-- A PENDING=false state: identical to the minimal header but with the
status byte set to 1 (IN_PROGRESS). -/
def c10Buf : List Nat :=
  STATE_DISC ++ [1, 255] ++ [7, 0, 0, 0, 0, 0, 0, 0] ++
  [64, 66, 15, 0, 0, 0, 0, 0] ++ [10, 1] ++ List.replicate 32 3 ++
  List.replicate 32 4 ++ [0] ++ [5, 0, 0, 0, 0, 0, 0, 0]

/-- Environment for the C10 witness. -/
def c10Env : SubEnv :=
  { subscriberValid := true, subscriber := List.replicate 32 6,
    stateData := some c10Buf, stateOwnerOk := true, blockhash := 77 }

/-- Witness for C10: a status-1 challenge rejects the subscribe build. -/
theorem buildSubscribe_pending_only_witness :
    buildSubscribeTxForChallenge c10Env = .failed "CHALLENGE_NOT_OPEN" :=
  (buildSubscribe_pending_only c10Env c10Buf
    { version := 1, bump := 255, challengeId := 7, fee := 1000000,
      commission := 10, status := 1, owner := List.replicate 32 3,
      treasury := List.replicate 32 4, paid := false, opCounter := 5,
      vecOffset := 101 }
    rfl (by rfl)).1 rfl rfl (by decide)

end SolanaWrapper
